import Mathlib

/-!
Verification of the Sniffle allergy-risk engine.

This file is a shallow embedding of the two algorithmic modules of the
repository:

* `src/utils/helpers.js` — `calculateAllergyRisk` and its analyzer helpers
  (`analyzePollenRisk`, `analyzeAirQuality`, `analyzeWeatherImpact`,
  `analyzeAllergyProfile`, `analyzeHistoricalPatterns`,
  `analyzeRecentExposure`, `analyzeMedicationImpact`,
  `analyzeTemporalFactors`, `analyzeSynergisticEffects`,
  `determineRiskLevel`, `generateEnhancedRecommendations`);
* `src/backend/ml_models/data_processor.js` — `extractTemporalPatterns`
  and `analyzeFoodCorrelations`.

Modelling conventions:

* JavaScript numbers are modelled as exact rationals (`ℚ`).  All inputs and
  constants appearing in the program and in the claims are small decimal
  fractions, and every comparison settled below is robust to double
  rounding at the inputs used.
* `undefined`/missing object fields are modelled as `Option` fields.
* The JavaScript `x || d` defaulting idiom is modelled by `jsOrQ`/`jsOrStr`
  with the exact falsiness semantics of JS (`0`, `""` and `undefined` are
  falsy); `NaN` never arises for the well-typed inputs in scope.
* `Math.round` is `⌊x + 1/2⌋` (`jsRound`), exactly JS semantics on
  non-NaN finite numbers.
* Every wall-clock read (`new Date()` and the derived `getHours()`,
  `getDay()`, `getMonth()`, `getTime()` observations) is modelled by an
  explicit `Timestamp` argument threaded through the call tree; a stored
  timestamp (Firestore timestamp or `Date`) is modelled by the same
  structure, carrying exactly the observations the code makes of it.
* JS objects used as string-keyed maps are modelled as association lists in
  insertion order; the code only ever reads them back pointwise, so key
  enumeration order is irrelevant to every claim below.
-/

/-- Milliseconds-since-epoch value of a JS `Date` together with the
calendar observations the code makes of it (`getHours`, `getDay`,
`getMonth`; `month` is 0-indexed as in JS). -/
structure Timestamp where
  ms : ℚ
  hour : ℤ
  day : ℤ
  month : ℤ
deriving DecidableEq, Repr

/-- JS `x || d` on an optional number: `undefined` and `0` are falsy. -/
def jsOrQ (x : Option ℚ) (d : ℚ) : ℚ :=
  match x with
  | some v => if v = 0 then d else v
  | none => d

/-- JS `x || d` on an optional string: `undefined` and `""` are falsy. -/
def jsOrStr (x : Option String) (d : String) : String :=
  match x with
  | some v => if v = "" then d else v
  | none => d

/-- JS `a || b` on two optional numbers (used for
`environmentalData.air_quality || environmentalData.aqi`). -/
def jsOrOpt (a b : Option ℚ) : Option ℚ :=
  match a with
  | some v => if v = 0 then b else some v
  | none => b

/-- JS `Math.round`: round half toward positive infinity. -/
def jsRound (x : ℚ) : ℤ := ⌊x + 1/2⌋

/-- ASCII lowercasing, as applied by `toLowerCase()` to the ASCII strings
this program manipulates. -/
def strLower (s : String) : String := String.mk (s.data.map Char.toLower)

/-- `leadMatch pat l` holds when `pat` occurs at the head of `l`. -/
def leadMatch : List Char → List Char → Bool
  | [], _ => true
  | _ :: _, [] => false
  | a :: as, b :: bs => a == b && leadMatch as bs

/-- `hasSub pat l` holds when `pat` occurs contiguously somewhere in `l`. -/
def hasSub (pat : List Char) : List Char → Bool
  | [] => leadMatch pat []
  | c :: rest => leadMatch pat (c :: rest) || hasSub pat rest

/-- JS `s.includes(pat)`: contiguous substring test. -/
def strIncludes (s pat : String) : Bool := hasSub pat.data s.data

/-- JS `s.split(' ')[0]`: the leading segment of `s` before the first
space (the whole of `s` when no space occurs; `""` for `""`). -/
def headWord (s : String) : String :=
  String.mk (s.data.takeWhile (fun c => !(c == ' ')))

/-- JS `[...new Set(l)]`: deduplication keeping the first occurrence of
each element, preserving first-seen order. -/
def jsSetDedup {α : Type} [DecidableEq α] : List α → List α
  | [] => []
  | x :: xs => x :: jsSetDedup (xs.filter (fun y => decide (y ≠ x)))
termination_by l => l.length
decreasing_by
  simp only [List.length_cons]
  exact Nat.lt_succ_of_le (List.length_filter_le _ _)

/-- Arithmetic mean as computed by `_mean` in `data_processor.js`
(`0` for an empty list). -/
def jsMean (l : List ℚ) : ℚ := if l = [] then 0 else l.sum / (l.length : ℚ)

/-- Population variance as computed inside `_std` in `data_processor.js`
(`_std` returns its square root; comparisons of `_std l` against a
nonnegative bound `c` are modelled as `jsVariance l > c ^ 2`, which is
equivalent because `Math.sqrt` is monotone and both sides are
nonnegative). -/
def jsVariance (l : List ℚ) : ℚ :=
  if l = [] then 0 else ((l.map (fun v => (v - jsMean l) ^ 2)).sum) / (l.length : ℚ)

/-- `EnvironmentalReading` as consumed by `helpers.js`; every field the
code reads, each optional (absent = `undefined`). -/
structure EnvironmentalData where
  pollen_risk : Option String := none
  pollen_count : Option ℚ := none
  pollen_types : Option (List String) := none
  air_quality : Option ℚ := none
  aqi : Option ℚ := none
  pm25 : Option ℚ := none
  pm10 : Option ℚ := none
  ozone : Option ℚ := none
  no2 : Option ℚ := none
  weather_condition : Option String := none
  humidity : Option ℚ := none
  wind_speed : Option ℚ := none
  temperature : Option ℚ := none
  barometric_pressure : Option ℚ := none
deriving DecidableEq, Repr

/-- One medication entry (`{name, type}`). -/
structure Medication where
  name : Option String := none
  mtype : Option String := none
deriving DecidableEq, Repr

/-- One `ReactionRecord` as read by the code: timestamp, severity and the
recorded weather condition. -/
structure Reaction where
  timestamp : Option Timestamp := none
  severity : Option ℚ := none
  weather_condition : Option String := none
deriving DecidableEq, Repr

/-- One `FoodLogEntry`: timestamp and consumed items. -/
structure FoodLog where
  timestamp : Option Timestamp := none
  items : Option (List String) := none
deriving DecidableEq, Repr

/-- One activity-pattern bucket (`{outdoor_time}`). -/
structure ActivityPattern where
  outdoor_time : Option ℚ := none
deriving DecidableEq, Repr

/-- `activity_patterns` with its weekday/weekend buckets. -/
structure ActivityPatterns where
  weekday : Option ActivityPattern := none
  weekend : Option ActivityPattern := none
deriving DecidableEq, Repr

/-- `UserProfile` as consumed by `helpers.js`. `allergy_severity` is the
allergen→severity map, modelled as an association list. -/
structure UserData where
  allergens : Option (List String) := none
  allergy_severity : Option (List (String × String)) := none
  allergy_reactions : Option (List Reaction) := none
  food_logs : Option (List FoodLog) := none
  medications : Option (List Medication) := none
  recent_medication_taken : Option Bool := none
  activity_patterns : Option ActivityPatterns := none
deriving DecidableEq, Repr

/-- An analyzer result: accumulated score and pushed factor strings. -/
structure ScoreFactors where
  score : ℚ
  factors : List String
deriving DecidableEq, Repr

/-- `analyzePollenRisk` of `helpers.js`. -/
def analyzePollenRisk (e : EnvironmentalData) : ScoreFactors :=
  let pollenRisk := e.pollen_risk.map strLower
  let pollenCount := jsOrQ e.pollen_count 0
  let pollenTypes := e.pollen_types.getD []
  let base : ℚ × List String :=
    if pollenRisk = some "very_low" then (2, [])
    else if pollenRisk = some "low" then (8, ["Low pollen levels detected"])
    else if pollenRisk = some "moderate" then (20, ["Moderate pollen levels present"])
    else if pollenRisk = some "high" then (35, ["High pollen concentration"])
    else if pollenRisk = some "very_high" then
      (50, ["Very high pollen levels - peak allergen exposure"])
    else (0, [])
  let highRiskTypes := ["ragweed", "birch", "oak", "grass"]
  let detectedHighRisk :=
    pollenTypes.filter (fun t => highRiskTypes.any (fun r => strIncludes (strLower t) r))
  let joined := String.intercalate ", " detectedHighRisk
  let types : ℚ × List String :=
    if detectedHighRisk.length > 0 then
      ((detectedHighRisk.length : ℚ) * 5, [s!"High-allergenicity pollen detected: {joined}"])
    else (0, [])
  let count : ℚ × List String :=
    if pollenCount > 0 then
      if pollenCount > 1000 then (15, [s!"Very high pollen count: {pollenCount} grains/m3"])
      else if pollenCount > 500 then (8, [s!"High pollen count: {pollenCount} grains/m3"])
      else (0, [])
    else (0, [])
  ⟨min (base.1 + types.1 + count.1) 50, base.2 ++ types.2 ++ count.2⟩

/-- `analyzeAirQuality` of `helpers.js`. -/
def analyzeAirQuality (e : EnvironmentalData) : ScoreFactors :=
  let aqi := jsOrOpt e.air_quality e.aqi
  let base : ℚ × List String :=
    match aqi with
    | none => (0, [])
    | some a =>
      if a ≤ 50 then (0, [])
      else if a ≤ 100 then (5, ["Moderate air quality may affect sensitive individuals"])
      else if a ≤ 150 then (15, ["Unhealthy air quality for sensitive groups"])
      else if a ≤ 200 then (25, ["Unhealthy air quality - respiratory irritation likely"])
      else (35, ["Very unhealthy air quality - avoid outdoor activities"])
  let pm : ℚ × List String :=
    match e.pm25 with
    | some p =>
      if p > 55 then (10, [s!"High PM2.5 levels ({p} ug/m3) - respiratory irritant"])
      else (0, [])
    | none => (0, [])
  let oz : ℚ × List String :=
    match e.ozone with
    | some o =>
      if o > 140 then (8, ["Elevated ozone levels - may trigger respiratory symptoms"])
      else (0, [])
    | none => (0, [])
  ⟨min (base.1 + pm.1 + oz.1) 40, base.2 ++ pm.2 ++ oz.2⟩

/-- `analyzeWeatherImpact` of `helpers.js`. -/
def analyzeWeatherImpact (e : EnvironmentalData) : ScoreFactors :=
  let weather := jsOrStr (e.weather_condition.map strLower) ""
  let humidity := jsOrQ e.humidity 0
  let windSpeed := jsOrQ e.wind_speed 0
  let temperature := jsOrQ e.temperature 20
  let cond : ℚ × List String :=
    if strIncludes weather "thunderstorm" || strIncludes weather "storm" then
      (-5, ["Thunderstorms help clear airborne allergens"])
    else if strIncludes weather "rain" then
      (-3, ["Rain reduces pollen and dust particles"])
    else if strIncludes weather "wind" ∧ windSpeed > 15 then
      (8, ["Strong winds dispersing allergens widely"])
    else if windSpeed > 8 then (4, ["Moderate winds spreading pollen"])
    else (0, [])
  let hum : ℚ × List String :=
    if humidity > 80 then (6, ["Very high humidity promoting mold growth"])
    else if humidity > 60 then (3, ["Elevated humidity may increase mold spores"])
    else if humidity < 30 then (2, ["Low humidity may increase dust and irritants"])
    else (0, [])
  let temp : ℚ × List String :=
    if temperature > 25 ∧ humidity > 50 then
      (3, ["Warm, humid conditions favor allergen production"])
    else (0, [])
  let press : ℚ × List String :=
    match e.barometric_pressure with
    | some p =>
      if p < 1000 then (2, ["Low pressure system may increase sinus pressure"])
      else (0, [])
    | none => (0, [])
  ⟨min (cond.1 + hum.1 + temp.1 + press.1) 20, cond.2 ++ hum.2 ++ temp.2 ++ press.2⟩

/-- JS `opt?.toLowerCase().includes(pat)`: false when the field is
absent (optional chaining yields `undefined`, which is falsy). -/
def optIncludes (o : Option String) (pat : String) : Bool :=
  match o with
  | some s => strIncludes (strLower s) pat
  | none => false

/-- The per-allergen contribution accumulated by the loop body of
`analyzeAllergyProfile` in `helpers.js`. -/
def allergenContribution (e : EnvironmentalData) (severity : List (String × String))
    (allergen : String) : ScoreFactors :=
  let al := strLower allergen
  let severityLevel := jsOrStr (severity.lookup allergen) "moderate"
  let multiplier : ℚ :=
    if severityLevel = "severe" then 1.5 else if severityLevel = "mild" then 0.7 else 1
  let pollenRisk := e.pollen_risk.map strLower
  let pollenPart : ℚ × List String :=
    if strIncludes al "pollen" || strIncludes al "grass" || strIncludes al "tree" ||
        strIncludes al "weed" || strIncludes al "ragweed" || strIncludes al "birch" then
      if pollenRisk = some "very_high" then
        (20 * multiplier, [s!"Very high {allergen} pollen matches your severe allergy"])
      else if pollenRisk = some "high" then
        (15 * multiplier, [s!"High {allergen} levels detected - matches your allergy profile"])
      else if pollenRisk = some "moderate" then
        (8 * multiplier, [s!"Moderate {allergen} levels may trigger symptoms"])
      else (0, [])
    else (0, [])
  let dustPart : ℚ × List String :=
    if strIncludes al "dust" || strIncludes al "mold" || strIncludes al "mildew" then
      let aqi := jsOrQ e.air_quality 0
      let humidity := jsOrQ e.humidity 0
      let aqiPart : ℚ × List String :=
        if aqi ≥ 3 then (10 * multiplier, [s!"Poor air quality affects your {allergen} sensitivity"])
        else (0, [])
      let humPart : ℚ × List String :=
        if humidity > 70 then (8 * multiplier, [s!"High humidity promotes {allergen} growth"])
        else (0, [])
      (aqiPart.1 + humPart.1, aqiPart.2 ++ humPart.2)
    else (0, [])
  let petPart : ℚ × List String :=
    if strIncludes al "pet" || strIncludes al "cat" || strIncludes al "dog" ||
        strIncludes al "dander" then
      if (match e.air_quality with | some a => decide (a ≥ 3) | none => false) then
        (5 * multiplier, ["Poor outdoor air may increase indoor pet allergen exposure"])
      else (0, [])
    else (0, [])
  ⟨pollenPart.1 + dustPart.1 + petPart.1, pollenPart.2 ++ dustPart.2 ++ petPart.2⟩

/-- One iteration of the `for (const allergen of userAllergens)` loop of
`analyzeAllergyProfile`. -/
def allergyStep (e : EnvironmentalData) (severity : List (String × String))
    (acc : ScoreFactors) (a : String) : ScoreFactors :=
  let c := allergenContribution e severity a
  ⟨acc.score + c.score, acc.factors ++ c.factors⟩

/-- `analyzeAllergyProfile` of `helpers.js`. -/
def analyzeAllergyProfile (u : UserData) (e : EnvironmentalData) : ScoreFactors :=
  let userAllergens := u.allergens.getD []
  let severity := u.allergy_severity.getD []
  if userAllergens = [] then ⟨0, []⟩
  else
    let acc := userAllergens.foldl (allergyStep e severity) ⟨0, []⟩
    ⟨min acc.score 40, acc.factors⟩

/-- `analyzeHistoricalPatterns` of `helpers.js`.  A reaction without a
timestamp yields `NaN` calendar observations in JS and so never matches
the current month. -/
def analyzeHistoricalPatterns (u : UserData) (e : EnvironmentalData) (now : Timestamp) :
    ScoreFactors :=
  let reactions := u.allergy_reactions.getD []
  let currentWeather := jsOrStr (e.weather_condition.map strLower) ""
  let seasonalReactions := reactions.filter
    (fun r => match r.timestamp with
      | some t => decide (t.month = now.month)
      | none => false)
  let seasonal : ℚ × List String :=
    if seasonalReactions.length > 0 then
      let avgSeverity :=
        (seasonalReactions.map (fun r => jsOrQ r.severity 3)).sum / (seasonalReactions.length : ℚ)
      let cnt := seasonalReactions.length
      (min ((seasonalReactions.length : ℚ) * 3 + avgSeverity * 2) 15,
        [s!"Historical pattern: {cnt} reactions in similar conditions"])
    else (0, [])
  let weatherReactions := reactions.filter
    (fun r => strIncludes (jsOrStr (r.weather_condition.map strLower) "") (headWord currentWeather))
  let wmatch : ℚ × List String :=
    if weatherReactions.length > 2 then
      (8, [s!"Weather pattern match: increased risk in {currentWeather} conditions"])
    else (0, [])
  ⟨min (seasonal.1 + wmatch.1) 20, seasonal.2 ++ wmatch.2⟩

/-- `analyzeRecentExposure` of `helpers.js`.  A reaction without a
timestamp gives `daysSince = NaN` in JS and is never counted as recent. -/
def analyzeRecentExposure (u : UserData) (now : Timestamp) : ScoreFactors :=
  let recentReactions := (u.allergy_reactions.getD []).filter
    (fun r => match r.timestamp with
      | some t => decide ((now.ms - t.ms) / (1000 * 60 * 60 * 24) ≤ 7)
      | none => false)
  let recent : ℚ × List String :=
    if recentReactions.length > 0 then
      let severityBonus := (recentReactions.map (fun r => jsOrQ r.severity 3)).sum
      let cnt := recentReactions.length
      let plural := if recentReactions.length > 1 then "s" else ""
      (min ((recentReactions.length : ℚ) * 4 + severityBonus) 20,
        [s!"{cnt} recent reaction{plural} increase sensitivity"])
    else (0, [])
  let foodLogs := u.food_logs.getD []
  let recentFoodLogs := foodLogs.drop (foodLogs.length - 2)
  let userAllergens := u.allergens.getD []
  let foodAllergens := userAllergens.filter
    (fun a => !(strIncludes (strLower a) "pollen") && !(strIncludes (strLower a) "dust") &&
      !(strIncludes (strLower a) "mold"))
  let food : ℚ × List String :=
    if recentFoodLogs.length > 0 ∧ foodAllergens.length > 0 then
      let recentFoods := recentFoodLogs.flatMap (fun l => l.items.getD [])
      match foodAllergens.find? (fun a =>
        let allergenWords := (strLower a).splitOn " "
        recentFoods.any (fun f =>
          allergenWords.any (fun w => strIncludes (strLower f) w) ||
            strIncludes (strLower f) (strLower a))) with
      | some a => (8, [s!"Recent {a} consumption may heighten overall sensitivity"])
      | none => (0, [])
    else (0, [])
  ⟨min (recent.1 + food.1) 25, recent.2 ++ food.2⟩

/-- `analyzeMedicationImpact` of `helpers.js`. -/
def analyzeMedicationImpact (u : UserData) : ScoreFactors :=
  let medications := u.medications.getD []
  let recentMedication := u.recent_medication_taken.getD false
  let allergyMeds := medications.filter (fun m =>
    optIncludes m.mtype "antihistamine" || optIncludes m.name "claritin" ||
      optIncludes m.name "zyrtec" || optIncludes m.name "allegra" ||
      optIncludes m.name "benadryl" || optIncludes m.mtype "steroid")
  let meds : ℚ × List String :=
    if allergyMeds.length > 0 ∧ recentMedication then
      (-10, ["Current allergy medications provide protection"])
    else if allergyMeds.length > 0 ∧ ¬recentMedication then
      (5, ["Allergy medication not taken recently - increased vulnerability"])
    else (0, [])
  let sensitizingMeds := medications.filter (fun m =>
    optIncludes m.mtype "ace inhibitor" || optIncludes m.name "aspirin")
  let sens : ℚ × List String :=
    if sensitizingMeds.length > 0 then
      (3, ["Some medications may increase allergic sensitivity"])
    else (0, [])
  ⟨max (-10) (min (meds.1 + sens.1) 10), meds.2 ++ sens.2⟩

/-- `analyzeTemporalFactors` of `helpers.js`; the three `new Date()`
reads are the threaded `now`. -/
def analyzeTemporalFactors (u : Option UserData) (now : Timestamp) : ScoreFactors :=
  let tod : ℚ × List String :=
    if 6 ≤ now.hour ∧ now.hour ≤ 10 then (3, ["Morning hours show peak pollen release"])
    else if 17 ≤ now.hour ∧ now.hour ≤ 20 then
      (2, ["Evening pollen descent increases ground-level exposure"])
    else (0, [])
  let season : ℚ × List String :=
    if now.month ∈ ([2, 3, 4, 8, 9] : List ℤ) then
      (4, ["Peak allergy season increases baseline risk"])
    else (0, [])
  let activity : ℚ × List String :=
    match u with
    | some ud =>
      match ud.activity_patterns with
      | some ap =>
        let isWeekend := now.day = 0 ∨ now.day = 6
        let bucket := if isWeekend then ap.weekend else ap.weekday
        let outdoorActivity := jsOrQ (bucket.bind (fun b => b.outdoor_time)) 0
        if outdoorActivity > 4 then
          (5, ["High outdoor activity increases allergen exposure"])
        else (0, [])
      | none => (0, [])
    | none => (0, [])
  ⟨min (tod.1 + season.1 + activity.1) 15, tod.2 ++ season.2 ++ activity.2⟩

/-- `analyzeSynergisticEffects` of `helpers.js`; `envRisk`/`persRisk` are
the accumulated environmental and personal category totals passed in via
`riskFactors`. -/
def analyzeSynergisticEffects (e : EnvironmentalData) (u : Option UserData)
    (envRisk persRisk : ℚ) : ScoreFactors :=
  let combined : ℚ × List String :=
    if envRisk > 30 ∧ persRisk > 20 then
      (8, ["High environmental and personal risk factors compound each other"])
    else (0, [])
  let multi : ℚ × List String :=
    if (match u with
        | some ud => decide ((ud.allergens.getD []).length > 3)
        | none => false) && decide (e.pollen_risk = some "high") then
      (5, ["Multiple allergen sensitivities increase overall reactivity"])
    else (0, [])
  let aqi := jsOrQ e.air_quality 0
  let pollenRisk := e.pollen_risk.map strLower
  let airPollen : ℚ × List String :=
    if aqi ≥ 3 ∧ (pollenRisk = some "high" ∨ pollenRisk = some "very_high") then
      (6, ["Poor air quality traps and concentrates pollen particles"])
    else (0, [])
  let humidity := jsOrQ e.humidity 0
  let windSpeed := jsOrQ e.wind_speed 0
  let weatherAllergen : ℚ × List String :=
    if humidity > 70 ∧ windSpeed > 5 ∧ pollenRisk ≠ some "low" then
      (4, ["Humid, windy conditions maximize allergen dispersal and mold growth"])
    else (0, [])
  ⟨min (combined.1 + multi.1 + airPollen.1 + weatherAllergen.1) 15,
    combined.2 ++ multi.2 ++ airPollen.2 ++ weatherAllergen.2⟩

/-- The level/description/color triple returned by `determineRiskLevel`. -/
structure RiskLevel where
  level : String
  description : String
  color : String
deriving DecidableEq, Repr

/-- `determineRiskLevel` of `helpers.js`. -/
def determineRiskLevel (score confidence : ℚ) : RiskLevel :=
  let confidenceAdjustment : ℚ := if confidence < 0.8 then 0.9 else 1
  let adjustedScore := score * confidenceAdjustment
  if adjustedScore ≤ 15 then ⟨"low", "Low Risk", "#4caf50"⟩
  else if adjustedScore ≤ 35 then ⟨"moderate", "Moderate Risk", "#ff9800"⟩
  else if adjustedScore ≤ 60 then ⟨"high", "High Risk", "#f44336"⟩
  else ⟨"very_high", "Very High Risk", "#d32f2f"⟩

/-- The recommendation list built by `generateEnhancedRecommendations`
before its final `[...new Set(...)]` deduplication. -/
def rawRecommendations (level : String) (factors : List String) (u : Option UserData)
    : List String :=
  let hasPersonalData := u.isSome
  let base : List String :=
    if level = "low" then
      ["Enjoy outdoor activities with minimal precautions"] ++
        (if hasPersonalData && (match u with
            | some ud => decide ((ud.allergens.getD []).length > 0)
            | none => false) then
          ["Keep rescue medication handy as a precaution"]
        else [])
    else if level = "moderate" then
      ["Consider limiting outdoor time during peak hours (6-10 AM)",
        "Close windows and use air conditioning when possible"] ++
        (if hasPersonalData then ["Take preventive allergy medication as prescribed"] else [])
    else if level = "high" then
      ["Limit outdoor activities, especially during morning hours",
        "Keep windows closed and use HEPA air filters indoors",
        "Shower and change clothes after being outdoors"] ++
        (if hasPersonalData then
          ["Consider taking allergy medication before exposure",
            "Have rescue medication readily available"]
        else [])
    else if level = "very_high" then
      ["Avoid outdoor activities if possible",
        "Stay indoors with air purification systems running",
        "If you must go out, wear a pollen-filtering mask"] ++
        (if hasPersonalData then
          ["Take all prescribed allergy medications",
            "Consider consulting your allergist for additional protection"]
        else [])
    else []
  let pollenRec :=
    if factors.any (fun f => strIncludes f "pollen") then
      ["Check pollen forecasts before planning outdoor activities"]
    else []
  let airRec :=
    if factors.any (fun f => strIncludes f "air quality") then
      ["Use air quality apps to monitor conditions throughout the day"]
    else []
  let humidityRec :=
    if factors.any (fun f => strIncludes f "humidity" || strIncludes f "mold") then
      ["Use dehumidifiers to keep indoor humidity below 50%"]
    else []
  let windRec :=
    if factors.any (fun f => strIncludes f "wind") then
      ["Avoid outdoor exercise on windy days"]
    else []
  let medRec :=
    if hasPersonalData && (match u with
        | some ud => decide (ud.recent_medication_taken = some false)
        | none => false) then
      ["Consider taking your allergy medication as prescribed"]
    else []
  base ++ pollenRec ++ airRec ++ humidityRec ++ windRec ++ medRec

/-- `generateEnhancedRecommendations` of `helpers.js`. -/
def generateEnhancedRecommendations (level : String) (factors : List String)
    (u : Option UserData) : List String :=
  jsSetDedup (rawRecommendations level factors u)

/-- The environmental category total accumulated into
`riskFactors.environmental`. -/
def envTotal (e : EnvironmentalData) : ℚ :=
  (analyzePollenRisk e).score + (analyzeAirQuality e).score + (analyzeWeatherImpact e).score

/-- The personal category total accumulated into `riskFactors.personal`
when user data is present. -/
def persTotal (u : UserData) (e : EnvironmentalData) (now : Timestamp) : ℚ :=
  (analyzeAllergyProfile u e).score + (analyzeHistoricalPatterns u e now).score +
    (analyzeRecentExposure u now).score + (analyzeMedicationImpact u).score

/-- The personal factor strings pushed into `personalFactors` when user
data is present. -/
def persFactors (u : UserData) (e : EnvironmentalData) (now : Timestamp) : List String :=
  (analyzeAllergyProfile u e).factors ++ (analyzeHistoricalPatterns u e now).factors ++
    (analyzeRecentExposure u now).factors ++ (analyzeMedicationImpact u).factors

/-- Rounded per-category contributions (`breakdown`). -/
structure Breakdown where
  environmental : ℤ
  personal : ℤ
  temporal : ℤ
  synergistic : ℤ
deriving DecidableEq, Repr

/-- `RiskAssessment`, the object returned by `calculateAllergyRisk`.
Fields that the degraded (null-reading) path leaves absent are optional. -/
structure RiskAssessment where
  level : String
  score : ℤ
  description : String
  color : Option String
  factors : Option (List String)
  recommendations : List String
  personalizedScore : Option Bool
  confidence : ℤ
  breakdown : Option Breakdown
deriving DecidableEq, Repr

/-- `calculateAllergyRisk` of `helpers.js`.  `now` stands for every
`new Date()` wall-clock read performed during the call. -/
def calculateAllergyRisk (envOpt : Option EnvironmentalData) (userOpt : Option UserData)
    (now : Timestamp) : RiskAssessment :=
  match envOpt with
  | none =>
    { level := "unknown"
      score := 0
      description := "Unable to assess - insufficient data"
      color := none
      factors := none
      recommendations := ["Check back when environmental data is available"]
      personalizedScore := none
      confidence := 0
      breakdown := none }
  | some e =>
    let pollen := analyzePollenRisk e
    let air := analyzeAirQuality e
    let weather := analyzeWeatherImpact e
    let environmental := envTotal e
    let confidence : ℚ := match userOpt with
      | some _ => 0.95
      | none => 0.7
    let personal : ℚ := match userOpt with
      | some u => persTotal u e now
      | none => 0
    let personalFactors : List String := match userOpt with
      | some u => persFactors u e now
      | none => []
    let temporal := analyzeTemporalFactors userOpt now
    let synergistic := analyzeSynergisticEffects e userOpt environmental personal
    let w : ℚ × ℚ × ℚ × ℚ := match userOpt with
      | some _ => (0.35, 0.45, 0.10, 0.10)
      | none => (0.70, 0, 0.20, 0.10)
    let totalScore :=
      min (environmental * w.1 + personal * w.2.1 + temporal.score * w.2.2.1 +
        synergistic.score * w.2.2.2) 100
    let riskLevel := determineRiskLevel totalScore confidence
    let detailedFactors :=
      pollen.factors ++ air.factors ++ weather.factors ++ temporal.factors ++
        synergistic.factors
    let allFactors := detailedFactors ++ personalFactors
    let recommendations := generateEnhancedRecommendations riskLevel.level allFactors userOpt
    { level := riskLevel.level
      score := jsRound totalScore
      description := riskLevel.description
      color := some riskLevel.color
      factors := some (if allFactors.length > 0 then allFactors
        else ["Environmental conditions assessed"])
      recommendations := recommendations
      personalizedScore := some userOpt.isSome
      confidence := jsRound (confidence * 100)
      breakdown := some
        { environmental := jsRound (environmental * w.1)
          personal := jsRound (personal * w.2.1)
          temporal := jsRound (temporal.score * w.2.2.1)
          synergistic := jsRound (synergistic.score * w.2.2.2) } }

/-- Output of `extractTemporalPatterns` in `data_processor.js`.  The two
early-return branches omit `seasonal_severity`, hence the `Option`.  In
`seasonal_severity` the code stores `spring || 0` etc.; for exact
rationals `v || 0 = v`, so the raw season means are stored. -/
structure TemporalPatterns where
  daily_pattern : List (ℤ × ℚ)
  monthly_pattern : List (ℤ × ℚ)
  has_seasonal_pattern : Bool
  seasonal_severity : Option (ℚ × ℚ × ℚ × ℚ)
deriving DecidableEq, Repr

/-- The parallel `timestamps`/`severities` arrays built by
`extractTemporalPatterns`: records without a truthy `timestamp` are
skipped; a present record's severity is `report.severity || 0`. -/
def timedSeverities (hist : List Reaction) : List (Timestamp × ℚ) :=
  hist.filterMap (fun r => r.timestamp.map (fun t => (t, jsOrQ r.severity 0)))

/-- Group key/severity pairs by key and take the mean per key (the
`hourSeverity`/`monthSeverity` object construction followed by `_mean`
over each bucket). -/
def patternOf (pairs : List (ℤ × ℚ)) : List (ℤ × ℚ) :=
  (jsSetDedup (pairs.map Prod.fst)).map
    (fun k => (k, jsMean ((pairs.filter (fun p => decide (p.1 = k))).map Prod.snd)))

/-- The four season means: each season's mean over its constituent
months that are present in the monthly pattern (the
`[m1,m2,m3].map(...).filter(v !== undefined)` then `_mean`); an entirely
empty season yields `_mean([]) = 0`. -/
def seasonMeansOf (monthly : List (ℤ × ℚ)) : ℚ × ℚ × ℚ × ℚ :=
  let spring := jsMean (([3, 4, 5] : List ℤ).filterMap (fun m => monthly.lookup m))
  let summer := jsMean (([6, 7, 8] : List ℤ).filterMap (fun m => monthly.lookup m))
  let fall := jsMean (([9, 10, 11] : List ℤ).filterMap (fun m => monthly.lookup m))
  let winter := jsMean (([12, 1, 2] : List ℤ).filterMap (fun m => monthly.lookup m))
  (spring, summer, fall, winter)

/-- `extractTemporalPatterns` of `data_processor.js`.  Because
`_mean([])` is `0` (never `NaN`), the `filter(v => !isNaN(v))` over the
four season values keeps all four; `hasSeasonalPattern` is
`_std(values) > 1.5`, modelled as `variance > (3/2)^2`. -/
def extractTemporalPatterns (hist : List Reaction) : TemporalPatterns :=
  if hist = [] then ⟨[], [], false, none⟩
  else
    let pairs := timedSeverities hist
    if pairs = [] then ⟨[], [], false, none⟩
    else
      let daily := patternOf (pairs.map (fun p => (p.1.hour, p.2)))
      let monthly := patternOf (pairs.map (fun p => (p.1.month + 1, p.2)))
      let sm := seasonMeansOf monthly
      let seasonalValues := [sm.1, sm.2.1, sm.2.2.1, sm.2.2.2]
      ⟨daily, monthly, decide (jsVariance seasonalValues > (3/2) ^ 2), some sm⟩

/-- The flattened `foodData` array of `analyzeFoodCorrelations`: one
`(item, time)` entry per item of each food log that has both a truthy
`timestamp` and an `items` array. -/
def foodDataOf (logs : List FoodLog) : List (String × ℚ) :=
  logs.flatMap (fun l =>
    match l.timestamp, l.items with
    | some t, some items => items.map (fun i => (i, t.ms))
    | _, _ => [])

/-- The `severityData` array of `analyzeFoodCorrelations`: one
`(severity, time)` entry per reaction with a truthy `timestamp` and a
defined `severity`. -/
def severityDataOf (hist : List Reaction) : List (ℚ × ℚ) :=
  hist.filterMap (fun r =>
    match r.timestamp, r.severity with
    | some t, some s => some (s, t.ms)
    | _, _ => none)

/-- Severities of reactions whose timestamp lies within 24 hours after
`foodTime` (`timeDiff >= 0 && timeDiff <= 24h`). -/
def windowSevs (sd : List (ℚ × ℚ)) (foodTime : ℚ) : List ℚ :=
  (sd.filter (fun p =>
    decide (0 ≤ p.2 - foodTime) && decide (p.2 - foodTime ≤ 24 * 60 * 60 * 1000))).map
    Prod.fst

/-- `foodCorrelations[item].push(...related)`: append to the existing
bucket of `item`, creating the bucket at the end on first use. -/
def insertAppend (m : List (String × List ℚ)) (k : String) (v : List ℚ) :
    List (String × List ℚ) :=
  if m.any (fun p => p.1 == k) then
    m.map (fun p => if p.1 == k then (p.1, p.2 ++ v) else p)
  else m ++ [(k, v)]

/-- One iteration of the `foodData.forEach` loop of
`analyzeFoodCorrelations`. -/
def fcStep (sd : List (ℚ × ℚ)) (m : List (String × List ℚ)) (p : String × ℚ) :
    List (String × List ℚ) :=
  let rel := windowSevs sd p.2
  if rel = [] then m else insertAppend m p.1 rel

/-- The `foodCorrelations` object after the `forEach` loop. -/
def foodCorrelationLists (logs : List FoodLog) (hist : List Reaction) :
    List (String × List ℚ) :=
  (foodDataOf logs).foldl (fcStep (severityDataOf hist)) []

/-- `analyzeFoodCorrelations` of `data_processor.js`. -/
def analyzeFoodCorrelations (logs : List FoodLog) (hist : List Reaction) :
    List (String × ℚ) :=
  if logs = [] ∨ hist = [] then []
  else (foodCorrelationLists logs hist).map (fun p => (p.1, jsMean p.2))

/-- Declarative characterisation of the severities the loop attributes to
`item`: for each logged occurrence of `item`, the severities of reactions
within that occurrence's 24-hour window, concatenated in loop order. -/
def matchedSevs (logs : List FoodLog) (hist : List Reaction) (item : String) : List ℚ :=
  (foodDataOf logs).flatMap
    (fun p => if p.1 == item then windowSevs (severityDataOf hist) p.2 else [])

theorem jsSetDedup_mem {α : Type} [DecidableEq α] {a : α} :
    ∀ {l : List α}, a ∈ jsSetDedup l → a ∈ l := by
  intro l
  induction l using jsSetDedup.induct with
  | case1 => simp [jsSetDedup]
  | case2 x xs ih =>
    rw [jsSetDedup]
    intro h
    rcases List.mem_cons.mp h with h | h
    · exact h ▸ List.mem_cons_self _ _
    · exact List.mem_cons_of_mem _ (List.mem_of_mem_filter (ih h))

theorem jsSetDedup_nodup {α : Type} [DecidableEq α] :
    ∀ (l : List α), (jsSetDedup l).Nodup := by
  intro l
  induction l using jsSetDedup.induct with
  | case1 => simp [jsSetDedup]
  | case2 x xs ih =>
    rw [jsSetDedup]
    refine List.nodup_cons.mpr ⟨fun hmem => ?_, ih⟩
    have := List.of_mem_filter (jsSetDedup_mem hmem)
    simp at this

theorem jsSetDedup_sublist {α : Type} [DecidableEq α] :
    ∀ (l : List α), (jsSetDedup l).Sublist l := by
  intro l
  induction l using jsSetDedup.induct with
  | case1 => simp [jsSetDedup]
  | case2 x xs ih =>
    rw [jsSetDedup]
    exact List.Sublist.cons₂ x (ih.trans (List.filter_sublist xs))

theorem jsSetDedup_mem_of_mem {α : Type} [DecidableEq α] {a : α} :
    ∀ {l : List α}, a ∈ l → a ∈ jsSetDedup l := by
  intro l
  induction l using jsSetDedup.induct with
  | case1 => simp
  | case2 x xs ih =>
    rw [jsSetDedup]
    intro h
    rcases List.mem_cons.mp h with h | h
    · exact h ▸ List.mem_cons_self _ _
    · by_cases hax : a = x
      · exact hax ▸ List.mem_cons_self _ _
      · exact List.mem_cons_of_mem _ (ih (List.mem_filter.mpr ⟨h, by simpa using hax⟩))

theorem jsRound_mono {x y : ℚ} (h : x ≤ y) : jsRound x ≤ jsRound y :=
  Int.floor_le_floor (by linarith)

theorem jsMean_nonneg {l : List ℚ} (h : ∀ x ∈ l, 0 ≤ x) : 0 ≤ jsMean l := by
  unfold jsMean
  split
  · exact le_refl 0
  · exact div_nonneg (List.sum_nonneg h) (by positivity)

theorem analyzePollenRisk_bounds (e : EnvironmentalData) :
    0 ≤ (analyzePollenRisk e).score ∧ (analyzePollenRisk e).score ≤ 50 := by
  unfold analyzePollenRisk
  refine ⟨le_min ?_ (by norm_num), min_le_right _ _⟩
  split_ifs <;> positivity

theorem analyzeAirQuality_bounds (e : EnvironmentalData) :
    0 ≤ (analyzeAirQuality e).score ∧ (analyzeAirQuality e).score ≤ 40 := by
  unfold analyzeAirQuality
  refine ⟨le_min ?_ (by norm_num), min_le_right _ _⟩
  rcases jsOrOpt e.air_quality e.aqi with _ | a <;> rcases e.pm25 with _ | p <;>
    rcases e.ozone with _ | o <;> dsimp <;> (try split_ifs) <;> norm_num

theorem analyzeWeatherImpact_bounds (e : EnvironmentalData) :
    -5 ≤ (analyzeWeatherImpact e).score ∧ (analyzeWeatherImpact e).score ≤ 20 := by
  unfold analyzeWeatherImpact
  refine ⟨le_min ?_ (by norm_num), min_le_right _ _⟩
  rcases e.barometric_pressure with _ | p <;> dsimp <;> split_ifs <;> norm_num

theorem allergenContribution_nonneg (e : EnvironmentalData)
    (sev : List (String × String)) (a : String) :
    0 ≤ (allergenContribution e sev a).score := by
  unfold allergenContribution
  dsimp
  split_ifs <;> norm_num

theorem allergyStep_foldl_le (e : EnvironmentalData) (sev : List (String × String)) :
    ∀ (l : List String) (acc : ScoreFactors),
      acc.score ≤ (l.foldl (allergyStep e sev) acc).score := by
  intro l
  induction l with
  | nil => intro acc; exact le_refl _
  | cons x xs ih =>
    intro acc
    refine le_trans ?_ (ih _)
    unfold allergyStep
    have := allergenContribution_nonneg e sev x
    dsimp
    linarith

theorem analyzeAllergyProfile_bounds (u : UserData) (e : EnvironmentalData) :
    0 ≤ (analyzeAllergyProfile u e).score ∧ (analyzeAllergyProfile u e).score ≤ 40 := by
  unfold analyzeAllergyProfile
  dsimp only
  split
  · simp
  · dsimp only
    refine ⟨le_min ?_ (by norm_num), min_le_right _ _⟩
    exact allergyStep_foldl_le e (u.allergy_severity.getD []) _ ⟨0, []⟩

/-- Well-typedness of a profile per the data model: every recorded
reaction severity is nonnegative (the documented domain is 1–10). -/
def nonnegSeverities (u : UserData) : Prop :=
  ∀ r ∈ u.allergy_reactions.getD [], ∀ s, r.severity = some s → 0 ≤ s

theorem jsOrQ_sev_nonneg {u : UserData} (h : nonnegSeverities u) {r : Reaction}
    (hr : r ∈ u.allergy_reactions.getD []) : 0 ≤ jsOrQ r.severity 3 := by
  rcases hs : r.severity with _ | s
  · simp [jsOrQ, hs]
  · have := h r hr s hs
    simp only [jsOrQ, hs]
    split_ifs
    · norm_num
    · exact this

theorem analyzeHistoricalPatterns_bounds (u : UserData) (e : EnvironmentalData)
    (now : Timestamp) (h : nonnegSeverities u) :
    0 ≤ (analyzeHistoricalPatterns u e now).score ∧
      (analyzeHistoricalPatterns u e now).score ≤ 20 := by
  unfold analyzeHistoricalPatterns
  dsimp only
  refine ⟨le_min ?_ (by norm_num), min_le_right _ _⟩
  set sr := (u.allergy_reactions.getD []).filter
    (fun r => match r.timestamp with
      | some t => decide (t.month = now.month)
      | none => false) with hsr
  have hsum : 0 ≤ (sr.map (fun r => jsOrQ r.severity 3)).sum := by
    refine List.sum_nonneg ?_
    intro x hx
    obtain ⟨r, hr, rfl⟩ := List.mem_map.mp hx
    exact jsOrQ_sev_nonneg h (List.mem_of_mem_filter (hsr ▸ hr))
  have hterm : (0 : ℚ) ≤ (sr.length : ℚ) * 3 +
      (sr.map (fun r => jsOrQ r.severity 3)).sum / (sr.length : ℚ) * 2 := by
    have hdiv : (0 : ℚ) ≤ (sr.map (fun r => jsOrQ r.severity 3)).sum / (sr.length : ℚ) :=
      div_nonneg hsum (by positivity)
    have h1 : (0 : ℚ) ≤ (sr.length : ℚ) * 3 := by positivity
    linarith
  split_ifs <;> dsimp only
  · exact add_nonneg (le_min hterm (by norm_num)) (by norm_num)
  · exact add_nonneg (le_min hterm (by norm_num)) (by norm_num)
  · norm_num
  · norm_num

theorem analyzeRecentExposure_bounds (u : UserData) (now : Timestamp)
    (h : nonnegSeverities u) :
    0 ≤ (analyzeRecentExposure u now).score ∧ (analyzeRecentExposure u now).score ≤ 25 := by
  unfold analyzeRecentExposure
  dsimp only
  refine ⟨le_min ?_ (by norm_num), min_le_right _ _⟩
  set rr := (u.allergy_reactions.getD []).filter
    (fun r => match r.timestamp with
      | some t => decide ((now.ms - t.ms) / (1000 * 60 * 60 * 24) ≤ 7)
      | none => false) with hrr
  have hsum : 0 ≤ (rr.map (fun r => jsOrQ r.severity 3)).sum := by
    refine List.sum_nonneg ?_
    intro x hx
    obtain ⟨r, hr, rfl⟩ := List.mem_map.mp hx
    exact jsOrQ_sev_nonneg h (List.mem_of_mem_filter (hrr ▸ hr))
  have hterm : (0 : ℚ) ≤ (rr.length : ℚ) * 4 + (rr.map (fun r => jsOrQ r.severity 3)).sum := by
    have h1 : (0 : ℚ) ≤ (rr.length : ℚ) * 4 := by positivity
    linarith
  refine add_nonneg ?_ ?_
  · split_ifs <;> (try dsimp only) <;>
      first
        | exact le_min hterm (by norm_num)
        | norm_num
  · split_ifs <;> (try dsimp only) <;> (try norm_num)
    split <;> norm_num

theorem analyzeMedicationImpact_bounds (u : UserData) :
    -10 ≤ (analyzeMedicationImpact u).score ∧ (analyzeMedicationImpact u).score ≤ 10 := by
  unfold analyzeMedicationImpact
  dsimp only
  exact ⟨le_max_left _ _, max_le (by norm_num) (min_le_right _ _)⟩

theorem analyzeTemporalFactors_bounds (u : Option UserData) (now : Timestamp) :
    0 ≤ (analyzeTemporalFactors u now).score ∧ (analyzeTemporalFactors u now).score ≤ 15 := by
  unfold analyzeTemporalFactors
  dsimp only
  refine ⟨le_min ?_ (by norm_num), min_le_right _ _⟩
  refine add_nonneg (add_nonneg ?_ ?_) ?_
  · split_ifs <;> norm_num
  · split_ifs <;> norm_num
  · rcases u with _ | ud
    · norm_num
    · dsimp only
      split <;> (try split_ifs) <;> norm_num

theorem analyzeTemporalFactors_none_le (now : Timestamp) :
    (analyzeTemporalFactors none now).score ≤ 7 := by
  unfold analyzeTemporalFactors
  dsimp only
  refine le_trans (min_le_left _ _) ?_
  split_ifs <;> norm_num

theorem analyzeSynergisticEffects_bounds (e : EnvironmentalData) (u : Option UserData)
    (envRisk persRisk : ℚ) :
    0 ≤ (analyzeSynergisticEffects e u envRisk persRisk).score ∧
      (analyzeSynergisticEffects e u envRisk persRisk).score ≤ 15 := by
  unfold analyzeSynergisticEffects
  dsimp only
  refine ⟨le_min ?_ (by norm_num), min_le_right _ _⟩
  split_ifs <;> norm_num

theorem envTotal_bounds (e : EnvironmentalData) :
    -5 ≤ envTotal e ∧ envTotal e ≤ 110 := by
  have h1 := analyzePollenRisk_bounds e
  have h2 := analyzeAirQuality_bounds e
  have h3 := analyzeWeatherImpact_bounds e
  unfold envTotal
  constructor <;> linarith

theorem persTotal_bounds (u : UserData) (e : EnvironmentalData) (now : Timestamp)
    (h : nonnegSeverities u) :
    -10 ≤ persTotal u e now ∧ persTotal u e now ≤ 95 := by
  have h1 := analyzeAllergyProfile_bounds u e
  have h2 := analyzeHistoricalPatterns_bounds u e now h
  have h3 := analyzeRecentExposure_bounds u now h
  have h4 := analyzeMedicationImpact_bounds u
  unfold persTotal
  constructor <;> linarith

theorem jsRound_100 : jsRound (100 : ℚ) = 100 := by norm_num [jsRound]

theorem jsRound_neg35 : jsRound (-(7/2) : ℚ) = -3 := by norm_num [jsRound]

theorem jsRound_neg625 : jsRound (-(25/4) : ℚ) = -6 := by norm_num [jsRound]

/-- A reference time: noon, a Monday in January. -/
def nowNoon : Timestamp := ⟨0, 12, 1, 0⟩

/-- Reading with storm weather and mid-range humidity; all other fields
absent. -/
def envStorm : EnvironmentalData := { weather_condition := some "storm", humidity := some 40 }

/-- Profile with no allergens and no history whose antihistamine was
recently taken. -/
def userMedicated : UserData :=
  { allergens := some [], medications := some [⟨none, some "antihistamine"⟩],
    recent_medication_taken := some true }

theorem userMedicated_nonnegSeverities : nonnegSeverities userMedicated := by
  intro r hr s hs
  simp [userMedicated] at hr

/-- C1 counterexample: the reading `envStorm` (storm weather, humidity 40)
together with the profile `userMedicated` (recently-taken antihistamine,
no allergens, no history) yields score `-6`, outside `[0, 100]`: the
weather sub-score `-5` and medication sub-score `-10` are weighted to
`-6.25` and `Math.min(·, 100)` clamps only from above. -/
theorem calculateAllergyRisk_score_negative :
    (calculateAllergyRisk (some envStorm) (some userMedicated) nowNoon).score = -6 ∧
      (calculateAllergyRisk (some envStorm) (some userMedicated) nowNoon).score < 0 := by
  constructor
  · with_unfolding_all decide
  · have h : (calculateAllergyRisk (some envStorm) (some userMedicated) nowNoon).score
        = -6 := by
      with_unfolding_all decide
    rw [h]
    norm_num

/-- C1 (amended): for every non-null reading, every reference time and
every (possibly null) profile whose recorded reaction severities are
nonnegative, the returned score is an integer in `[-6, 100]`; the upper
bound 100 holds as claimed, but the lower bound is `-6`, not `0`. -/
theorem calculateAllergyRisk_score_bounds (e : EnvironmentalData) (uOpt : Option UserData)
    (now : Timestamp) (h : ∀ u, uOpt = some u → nonnegSeverities u) :
    -6 ≤ (calculateAllergyRisk (some e) uOpt now).score ∧
      (calculateAllergyRisk (some e) uOpt now).score ≤ 100 := by
  have henv := envTotal_bounds e
  rcases uOpt with _ | u
  · have htemp := analyzeTemporalFactors_bounds none now
    have hsyn := analyzeSynergisticEffects_bounds e none (envTotal e) 0
    unfold calculateAllergyRisk
    dsimp only
    have hT : -(7/2 : ℚ) ≤ envTotal e * 0.70 + 0 * 0 +
        (analyzeTemporalFactors none now).score * 0.20 +
        (analyzeSynergisticEffects e none (envTotal e) 0).score * 0.10 := by
      linarith [henv.1, htemp.1, hsyn.1]
    constructor
    · calc (-6 : ℤ) ≤ -3 := by norm_num
        _ = jsRound (-(7/2)) := jsRound_neg35.symm
        _ ≤ _ := jsRound_mono (le_min hT (by norm_num))
    · calc jsRound _ ≤ jsRound (100 : ℚ) := jsRound_mono (min_le_right _ _)
        _ = 100 := jsRound_100
  · have htemp := analyzeTemporalFactors_bounds (some u) now
    have hpers := persTotal_bounds u e now (h u rfl)
    have hsyn := analyzeSynergisticEffects_bounds e (some u) (envTotal e) (persTotal u e now)
    unfold calculateAllergyRisk
    dsimp only
    have hT : -(25/4 : ℚ) ≤ envTotal e * 0.35 + persTotal u e now * 0.45 +
        (analyzeTemporalFactors (some u) now).score * 0.10 +
        (analyzeSynergisticEffects e (some u) (envTotal e) (persTotal u e now)).score * 0.10 := by
      linarith [henv.1, htemp.1, hsyn.1, hpers.1]
    constructor
    · calc (-6 : ℤ) = jsRound (-(25/4)) := jsRound_neg625.symm
        _ ≤ _ := jsRound_mono (le_min hT (by norm_num))
    · calc jsRound _ ≤ jsRound (100 : ℚ) := jsRound_mono (min_le_right _ _)
        _ = 100 := jsRound_100

/-- C1 witness: the bounds theorem applied at a concrete reading, profile
and reference time, with its well-typedness hypothesis discharged. -/
theorem calculateAllergyRisk_score_bounds_witness :
    (∀ u, (some userMedicated : Option UserData) = some u → nonnegSeverities u) ∧
      (-6 ≤ (calculateAllergyRisk (some envStorm) (some userMedicated) nowNoon).score ∧
        (calculateAllergyRisk (some envStorm) (some userMedicated) nowNoon).score ≤ 100) :=
  ⟨fun u hu => by cases hu; exact userMedicated_nonnegSeverities,
    calculateAllergyRisk_score_bounds envStorm (some userMedicated) nowNoon
      (fun u hu => by cases hu; exact userMedicated_nonnegSeverities)⟩

/-- C2 counterexample: the degraded result for a null reading carries no
`factors` field at all (modelled as `none`) — not a one-element factors
list as claimed; its only explanatory text is the `description`. -/
theorem degraded_result_has_no_factors :
    (calculateAllergyRisk none none nowNoon).factors = none := rfl

/-- C2 (amended): a null reading yields, without failing, the distinct
terminal result with level "unknown", score 0, confidence 0, an
explanatory description, one "retry later" recommendation, and no factors
list; it is distinct from every normal-pipeline result, which always
carries `factors` and `breakdown`. -/
theorem degraded_result_characterisation :
    (∀ uOpt now, calculateAllergyRisk none uOpt now =
      { level := "unknown", score := 0,
        description := "Unable to assess - insufficient data",
        color := none, factors := none,
        recommendations := ["Check back when environmental data is available"],
        personalizedScore := none, confidence := 0, breakdown := none }) ∧
    (∀ e uOpt now, (calculateAllergyRisk (some e) uOpt now).factors.isSome = true ∧
      (calculateAllergyRisk (some e) uOpt now).breakdown.isSome = true) :=
  ⟨fun _ _ => rfl, fun _ _ _ => ⟨rfl, rfl⟩⟩

/-- The reading of C4: pollen_risk "very_high", AQI 250, humidity 85. -/
def envPeak : EnvironmentalData :=
  { pollen_risk := some "very_high", air_quality := some 250, humidity := some 85 }

/-- C4 counterexample: on pollen_risk "very_high", AQI 250, humidity 85
with no profile, the air-quality sub-score is 35 — the AQI tier tops out
at `+35`, so the cap of 40 is not reached — and the returned level is
"high", not "very_high" (weighted total ≈ 64.3–65.7 is discounted by 0.9
for confidence 0.70, landing in the ≤ 60 "high" band). -/
theorem envPeak_level_high_not_very_high :
    (calculateAllergyRisk (some envPeak) none nowNoon).level = "high" ∧
      (calculateAllergyRisk (some envPeak) none nowNoon).level ≠ "very_high" ∧
      (analyzeAirQuality envPeak).score = 35 ∧
      (analyzeAirQuality envPeak).score ≠ 40 := by
  refine ⟨by with_unfolding_all decide, ?_, by with_unfolding_all decide, ?_⟩
  · have h : (calculateAllergyRisk (some envPeak) none nowNoon).level = "high" := by
      with_unfolding_all decide
    rw [h]
    decide
  · have h : (analyzeAirQuality envPeak).score = 35 := by with_unfolding_all decide
    rw [h]
    norm_num

/-- C4 (amended): for every reference time, the assessment of
pollen_risk="very_high", AQI=250, humidity=85 with no profile runs in
environmental-only mode (not personalized), the pollen sub-score clamps
to its cap 50, the air-quality sub-score is 35 (below its cap 40), and
the returned level is "high". -/
theorem envPeak_assessment (now : Timestamp) :
    (calculateAllergyRisk (some envPeak) none now).level = "high" ∧
    (calculateAllergyRisk (some envPeak) none now).personalizedScore = some false ∧
    (analyzePollenRisk envPeak).score = 50 ∧
    (analyzeAirQuality envPeak).score = 35 := by
  refine ⟨?_, rfl, by with_unfolding_all decide, by with_unfolding_all decide⟩
  have hsyn : (analyzeSynergisticEffects envPeak none (envTotal envPeak) 0).score = 6 := by
    with_unfolding_all decide
  have henv : envTotal envPeak = 91 := by with_unfolding_all decide
  have ht0 := (analyzeTemporalFactors_bounds none now).1
  have ht7 := analyzeTemporalFactors_none_le now
  unfold calculateAllergyRisk
  dsimp only
  rw [hsyn, henv]
  set t := (analyzeTemporalFactors none now).score with hts
  have hmin : min ((91:ℚ) * 0.70 + 0 * 0 + t * 0.20 + 6 * 0.10) 100 =
      (91:ℚ) * 0.70 + 0 * 0 + t * 0.20 + 6 * 0.10 := min_eq_left (by linarith)
  rw [hmin]
  unfold determineRiskLevel
  dsimp only
  rw [if_pos (show (0.7 : ℚ) < 0.8 by norm_num)]
  split_ifs with h1 h2 h3
  · exfalso; linarith
  · exfalso; linarith
  · rfl
  · exfalso; linarith

/-- A reaction logged exactly at the reference time `nowNoon`. -/
def reactionAtNoon : Reaction := ⟨some nowNoon, some 5, none⟩

/-- Profile with an explicitly empty allergens set and one recent
reaction. -/
def userNoAllergens : UserData :=
  { allergens := some [], allergy_reactions := some [reactionAtNoon] }

/-- C5 counterexample: with an empty allergens set but one recent
reaction (severity 5, logged at the reference time), the personal
category total is 22, not 0 — the reaction-history and recent-exposure
sub-analyzers do not consult the allergens set — and the personal slice
of the breakdown is 10. -/
theorem personal_total_nonzero_without_allergens :
    persTotal userNoAllergens envStorm nowNoon = 22 ∧
      ((calculateAllergyRisk (some envStorm) (some userNoAllergens) nowNoon).breakdown.map
        Breakdown.personal) = some 10 := by
  constructor
  · with_unfolding_all decide
  · with_unfolding_all decide

/-- C5 (amended): the personal category total is zero for a profile whose
allergens set is empty AND whose reaction history and medication list are
empty, regardless of its food logs and other fields; an empty allergens
set alone does not force a zero personal total. -/
theorem personal_total_zero_empty_profile (e : EnvironmentalData) (u : UserData)
    (now : Timestamp) (h1 : u.allergens.getD [] = [])
    (h2 : u.allergy_reactions.getD [] = []) (h3 : u.medications.getD [] = []) :
    persTotal u e now = 0 ∧
      ((calculateAllergyRisk (some e) (some u) now).breakdown.map Breakdown.personal) =
        some 0 := by
  have hap : (analyzeAllergyProfile u e).score = 0 := by
    unfold analyzeAllergyProfile
    dsimp only
    rw [if_pos h1]
  have hhp : (analyzeHistoricalPatterns u e now).score = 0 := by
    unfold analyzeHistoricalPatterns
    dsimp only
    rw [h2]
    norm_num
  have hre : (analyzeRecentExposure u now).score = 0 := by
    unfold analyzeRecentExposure
    dsimp only
    rw [h1, h2]
    norm_num
  have hmi : (analyzeMedicationImpact u).score = 0 := by
    unfold analyzeMedicationImpact
    dsimp only
    rw [h3]
    norm_num
  have hp : persTotal u e now = 0 := by
    unfold persTotal
    rw [hap, hhp, hre, hmi]
    norm_num
  refine ⟨hp, ?_⟩
  unfold calculateAllergyRisk
  dsimp only [Option.map]
  rw [hp]
  norm_num [jsRound]

/-- A fully empty profile (every field absent). -/
def userEmpty : UserData := {}

/-- C5 witness: the amended theorem applied to the empty profile at a
concrete reading and reference time. -/
theorem personal_total_zero_empty_profile_witness :
    (userEmpty.allergens.getD [] = [] ∧ userEmpty.allergy_reactions.getD [] = [] ∧
      userEmpty.medications.getD [] = []) ∧
    (persTotal userEmpty envStorm nowNoon = 0 ∧
      ((calculateAllergyRisk (some envStorm) (some userEmpty) nowNoon).breakdown.map
        Breakdown.personal) = some 0) :=
  ⟨⟨rfl, rfl, rfl⟩, personal_total_zero_empty_profile envStorm userEmpty nowNoon rfl rfl rfl⟩

/-- C10 (confirmed): for every non-null reading, any non-null profile —
however empty — switches the engine into personal mode: confidence 95,
`personalizedScore` true, and the personal-mode weight table
{environmental .35, personal .45, temporal .10, synergistic .10} applied
to the category totals in the breakdown and the final score. -/
theorem personal_mode_on_any_profile (e : EnvironmentalData) (u : UserData)
    (now : Timestamp) :
    (calculateAllergyRisk (some e) (some u) now).confidence = 95 ∧
    (calculateAllergyRisk (some e) (some u) now).personalizedScore = some true ∧
    (calculateAllergyRisk (some e) (some u) now).breakdown = some
      { environmental := jsRound (envTotal e * 0.35)
        personal := jsRound (persTotal u e now * 0.45)
        temporal := jsRound ((analyzeTemporalFactors (some u) now).score * 0.10)
        synergistic := jsRound
          ((analyzeSynergisticEffects e (some u) (envTotal e) (persTotal u e now)).score *
            0.10) } ∧
    (calculateAllergyRisk (some e) (some u) now).score =
      jsRound (min (envTotal e * 0.35 + persTotal u e now * 0.45 +
        (analyzeTemporalFactors (some u) now).score * 0.10 +
        (analyzeSynergisticEffects e (some u) (envTotal e) (persTotal u e now)).score * 0.10)
        100) := by
  refine ⟨?_, rfl, rfl, rfl⟩
  show jsRound ((0.95 : ℚ) * 100) = 95
  norm_num [jsRound]

/-- Reading with only "very_high" pollen risk. -/
def envVeryHighPollen : EnvironmentalData := { pollen_risk := some "very_high" }

/-- Profile listing the same allergen twice. -/
def userDupAllergen : UserData := { allergens := some ["pollen", "pollen"] }

/-- C8 counterexample: with the allergen "pollen" recorded twice and
very-high pollen risk, the factors list of the assessment contains the
same string twice — factors are concatenated from the analyzers with no
deduplication. -/
theorem factors_not_deduplicated :
    ¬ ((calculateAllergyRisk (some envVeryHighPollen) (some userDupAllergen)
      nowNoon).factors.getD []).Nodup := by
  with_unfolding_all decide

/-- C8 (amended): the recommendations list of every assessment is
set-deduplicated preserving first-seen order (the degraded path returns
a single recommendation); the factors list is not deduplicated. -/
theorem recommendations_nodup :
    (∀ envOpt uOpt now, (calculateAllergyRisk envOpt uOpt now).recommendations.Nodup) ∧
    (∀ l : List String, (jsSetDedup l).Sublist l ∧ ∀ s, s ∈ jsSetDedup l ↔ s ∈ l) := by
  constructor
  · intro envOpt uOpt now
    rcases envOpt with _ | e
    · simp [calculateAllergyRisk]
    · show (generateEnhancedRecommendations _ _ _).Nodup
      exact jsSetDedup_nodup _
  · intro l
    exact ⟨jsSetDedup_sublist l, fun s => ⟨jsSetDedup_mem, jsSetDedup_mem_of_mem⟩⟩

/-- Reading with only "low" pollen risk. -/
def envLowPollen : EnvironmentalData := { pollen_risk := some "low" }

/-- A reference time at 8 AM on the same January Monday as `nowNoon`. -/
def nowMorning : Timestamp := ⟨0, 8, 1, 0⟩

/-- C3: the code reads the wall clock (`new Date()`) inside
`analyzeTemporalFactors` (and the exposure/history analyzers) instead of
taking a threaded reference timestamp, so two evaluations of
`calculateAllergyRisk` on identical arguments at different wall-clock
instants return different assessments: at 8 AM the temporal sub-score
adds +3 (score 8), at noon it does not (score 7). -/
theorem wall_clock_changes_result :
    (calculateAllergyRisk (some envLowPollen) none nowMorning).score = 8 ∧
    (calculateAllergyRisk (some envLowPollen) none nowNoon).score = 7 ∧
    calculateAllergyRisk (some envLowPollen) none nowMorning ≠
      calculateAllergyRisk (some envLowPollen) none nowNoon := by
  refine ⟨by with_unfolding_all decide, by with_unfolding_all decide, ?_⟩
  intro hcontra
  have h8 : (calculateAllergyRisk (some envLowPollen) none nowMorning).score = 8 := by
    with_unfolding_all decide
  have h7 : (calculateAllergyRisk (some envLowPollen) none nowNoon).score = 7 := by
    with_unfolding_all decide
  rw [hcontra, h7] at h8
  exact absurd h8 (by norm_num)

/-- The four season means computed by `extractTemporalPatterns` from a
history: monthly pattern of the timestamped records, then per-season
means with empty seasons contributing `_mean([]) = 0`. -/
def seasonValuesOf (hist : List Reaction) : List ℚ :=
  let pairs := timedSeverities hist
  let monthly := patternOf (pairs.map (fun p => (p.1.month + 1, p.2)))
  let sm := seasonMeansOf monthly
  [sm.1, sm.2.1, sm.2.2.1, sm.2.2.2]

/-- C6 counterexample: a single reaction in March (severity 6) — data in
exactly one season — makes `has_seasonal_pattern` true: the four season
values are `[6, 0, 0, 0]` (empty seasons contribute mean 0, not NaN),
whose standard deviation √6.75 ≈ 2.6 exceeds 1.5.  The claim requires
`false` whenever fewer than 2 seasons have data. -/
theorem single_season_sets_flag :
    (extractTemporalPatterns [⟨some ⟨0, 0, 0, 2⟩, some 6, none⟩]).has_seasonal_pattern
      = true := by
  with_unfolding_all decide

/-- C6 (amended): `has_seasonal_pattern` is `_std > 1.5` (equivalently,
population variance > 2.25) over all four season means, where a season
with no data contributes mean 0 — not max−min over non-empty seasons
only, and not explicitly false for fewer than 2 populated seasons; it is
false only when no record has a timestamp or the variance test fails. -/
theorem seasonal_flag_is_variance_test (hist : List Reaction) :
    (extractTemporalPatterns hist).has_seasonal_pattern = true ↔
      (timedSeverities hist ≠ [] ∧ jsVariance (seasonValuesOf hist) > (3/2) ^ 2) := by
  unfold extractTemporalPatterns seasonValuesOf
  dsimp only
  split_ifs with hh hp
  · subst hh
    simp [timedSeverities]
  · simp [hp]
  · simp [hp, decide_eq_true_iff]

theorem timedSeverities_filter (hist : List Reaction) :
    timedSeverities (hist.filter (fun r => r.timestamp.isSome)) = timedSeverities hist := by
  unfold timedSeverities
  induction hist with
  | nil => rfl
  | cons r rest ih =>
    cases hr : r.timestamp with
    | none => simp [List.filter_cons, hr, List.filterMap_cons, ih]
    | some t => simp [List.filter_cons, hr, List.filterMap_cons, ih]

theorem extract_skips_untimestamped (hist : List Reaction) :
    extractTemporalPatterns hist =
      extractTemporalPatterns (hist.filter (fun r => r.timestamp.isSome)) := by
  have hts := timedSeverities_filter hist
  by_cases h2 : timedSeverities hist = []
  · have hLHS : extractTemporalPatterns hist = ⟨[], [], false, none⟩ := by
      unfold extractTemporalPatterns
      by_cases hh : hist = []
      · rw [if_pos hh]
      · rw [if_neg hh]
        dsimp only
        rw [if_pos h2]
    have hRHS : extractTemporalPatterns (hist.filter (fun r => r.timestamp.isSome)) =
        ⟨[], [], false, none⟩ := by
      unfold extractTemporalPatterns
      by_cases hh : hist.filter (fun r => r.timestamp.isSome) = []
      · rw [if_pos hh]
      · rw [if_neg hh]
        dsimp only
        rw [if_pos (hts.trans h2)]
    rw [hLHS, hRHS]
  · have hh : hist ≠ [] := by
      intro h
      subst h
      exact h2 rfl
    have hf : hist.filter (fun r => r.timestamp.isSome) ≠ [] := by
      intro h
      apply h2
      rw [← hts, h]
      rfl
    unfold extractTemporalPatterns
    rw [if_neg hh, if_neg hf]
    dsimp only
    rw [hts, if_neg h2]

theorem foodDataOf_filter (logs : List FoodLog) :
    foodDataOf (logs.filter (fun l => l.timestamp.isSome && l.items.isSome)) =
      foodDataOf logs := by
  unfold foodDataOf
  induction logs with
  | nil => rfl
  | cons l rest ih =>
    cases ht : l.timestamp with
    | none => simp [List.filter_cons, ht, ih]
    | some t =>
      cases hi : l.items with
      | none => simp [List.filter_cons, ht, hi, ih]
      | some items => simp [List.filter_cons, ht, hi, ih]

theorem severityDataOf_filter (hist : List Reaction) :
    severityDataOf (hist.filter (fun r => r.timestamp.isSome && r.severity.isSome)) =
      severityDataOf hist := by
  unfold severityDataOf
  induction hist with
  | nil => rfl
  | cons r rest ih =>
    cases ht : r.timestamp with
    | none => simp [List.filter_cons, ht, List.filterMap_cons, ih]
    | some t =>
      cases hs : r.severity with
      | none => simp [List.filter_cons, ht, hs, List.filterMap_cons, ih]
      | some s => simp [List.filter_cons, ht, hs, List.filterMap_cons, ih]

theorem foldl_fcStep_empty_sd (fd : List (String × ℚ)) :
    ∀ m, fd.foldl (fcStep []) m = m := by
  induction fd with
  | nil => intro m; rfl
  | cons p rest ih =>
    intro m
    show List.foldl (fcStep []) (fcStep [] m p) rest = m
    rw [show fcStep [] m p = m from rfl]
    exact ih m

theorem foodCorrelations_skip_malformed (logs : List FoodLog) (hist : List Reaction) :
    analyzeFoodCorrelations logs hist =
      analyzeFoodCorrelations (logs.filter (fun l => l.timestamp.isSome && l.items.isSome))
        (hist.filter (fun r => r.timestamp.isSome && r.severity.isSome)) := by
  have hfd := foodDataOf_filter logs
  have hsd := severityDataOf_filter hist
  by_cases hl : logs = []
  · subst hl; rfl
  · by_cases hh : hist = []
    · subst hh
      simp [analyzeFoodCorrelations]
    · by_cases hfl : logs.filter (fun l => l.timestamp.isSome && l.items.isSome) = []
      · have hfd0 : foodDataOf logs = [] := by rw [← hfd, hfl]; rfl
        unfold analyzeFoodCorrelations foodCorrelationLists
        rw [if_neg (by simp [hl, hh]), if_pos (Or.inl hfl), hfd0]
        rfl
      · by_cases hfh : hist.filter (fun r => r.timestamp.isSome && r.severity.isSome) = []
        · have hsd0 : severityDataOf hist = [] := by rw [← hsd, hfh]; rfl
          unfold analyzeFoodCorrelations foodCorrelationLists
          rw [if_neg (by simp [hl, hh]), if_pos (Or.inr hfh), hsd0,
            foldl_fcStep_empty_sd]
          rfl
        · unfold analyzeFoodCorrelations foodCorrelationLists
          rw [if_neg (by simp [hl, hh]), if_neg (by simp [hfl, hfh]), hfd, hsd]

/-- C9 counterexample: in `extractTemporalPatterns`, a record with a
timestamp but no severity is NOT skipped — it enters the aggregates with
severity 0 (`report.severity || 0`): one such record alongside a
severity-6 record at the same hour yields an hourly mean of 3, where
skipping would give 6. -/
theorem missing_severity_counted_as_zero :
    List.lookup 5 (extractTemporalPatterns
      [⟨some ⟨0, 5, 0, 0⟩, none, none⟩, ⟨some ⟨0, 5, 0, 0⟩, some 6, none⟩]).daily_pattern
      = some 3 ∧ (3 : ℚ) ≠ 6 := by
  constructor
  · with_unfolding_all decide
  · norm_num

/-- C9 (amended): records without a timestamp are skipped from all
aggregates in both history utilities, and the food correlator also skips
records without a defined severity — but the temporal extractor keeps
timestamped records with a missing severity, counting them as severity 0.
Both functions are total (never throw). -/
theorem malformed_records_skipped :
    (∀ hist, extractTemporalPatterns hist =
      extractTemporalPatterns (hist.filter (fun r => r.timestamp.isSome))) ∧
    (∀ logs hist, analyzeFoodCorrelations logs hist =
      analyzeFoodCorrelations (logs.filter (fun l => l.timestamp.isSome && l.items.isSome))
        (hist.filter (fun r => r.timestamp.isSome && r.severity.isSome))) :=
  ⟨extract_skips_untimestamped, foodCorrelations_skip_malformed⟩

/-- The bucket of severities for a key after appending `v` (`undefined`
bucket plus empty `v` stays absent). -/
def combineOpt : Option (List ℚ) → List ℚ → Option (List ℚ)
  | none, l => if l = [] then none else some l
  | some l, l2 => some (l ++ l2)

theorem combineOpt_assoc (o : Option (List ℚ)) (l1 l2 : List ℚ) :
    combineOpt (combineOpt o l1) l2 = combineOpt o (l1 ++ l2) := by
  rcases o with _ | l
  · by_cases h1 : l1 = []
    · subst h1
      simp [combineOpt]
    · have h12 : l1 ++ l2 ≠ [] := by simp [h1]
      simp [combineOpt, h1, h12]
  · simp [combineOpt]

theorem lookup_map_value (f : List ℚ → ℚ) (k : String) :
    ∀ (m : List (String × List ℚ)),
      List.lookup k (m.map (fun p => (p.1, f p.2))) = (List.lookup k m).map f := by
  intro m
  induction m with
  | nil => rfl
  | cons p rest ih =>
    rcases p with ⟨a, b⟩
    cases hk : k == a <;> simp [List.lookup, hk, ih]

theorem lookup_eq_none_of_any_false (k : String) :
    ∀ (m : List (String × List ℚ)), m.any (fun p => p.1 == k) = false →
      List.lookup k m = none := by
  intro m
  induction m with
  | nil => intro; rfl
  | cons p rest ih =>
    rcases p with ⟨a, b⟩
    intro h
    rw [List.any_cons] at h
    have h1 : (a == k) = false := by
      cases hab : a == k
      · rfl
      · rw [hab] at h; simp at h
    have h2 : rest.any (fun p => p.1 == k) = false := by
      cases hr : rest.any (fun p => p.1 == k)
      · rfl
      · rw [hr] at h; simp at h
    have hka : (k == a) = false :=
      beq_eq_false_iff_ne.mpr (Ne.symm (beq_eq_false_iff_ne.mp h1))
    simp [List.lookup, hka, ih h2]

theorem lookup_append_right (k : String) (v : List ℚ) :
    ∀ (m : List (String × List ℚ)), List.lookup k m = none →
      List.lookup k (m ++ [(k, v)]) = some v := by
  intro m
  induction m with
  | nil => intro; simp [List.lookup]
  | cons p rest ih =>
    rcases p with ⟨a, b⟩
    intro h
    cases hka : k == a
    · simp only [List.lookup, hka] at h ⊢
      exact ih h
    · simp [List.lookup, hka] at h

theorem lookup_isSome_of_any (k : String) :
    ∀ (m : List (String × List ℚ)), m.any (fun p => p.1 == k) = true →
      ∃ b, List.lookup k m = some b := by
  intro m
  induction m with
  | nil => intro h; simp at h
  | cons p rest ih =>
    rcases p with ⟨a, b⟩
    intro h
    cases hak : a == k
    · rw [List.any_cons, hak] at h
      simp only [Bool.false_or] at h
      have hka : (k == a) = false :=
        beq_eq_false_iff_ne.mpr (Ne.symm (beq_eq_false_iff_ne.mp hak))
      obtain ⟨c, hc⟩ := ih h
      exact ⟨c, by simp [List.lookup, hka, hc]⟩
    · have ha : a = k := eq_of_beq hak
      subst ha
      exact ⟨b, by simp [List.lookup]⟩

theorem lookup_mapAppend (k : String) (v : List ℚ) :
    ∀ (m : List (String × List ℚ)) (b : List ℚ), List.lookup k m = some b →
      List.lookup k (m.map (fun p => if p.1 == k then (p.1, p.2 ++ v) else p)) =
        some (b ++ v) := by
  intro m
  induction m with
  | nil => intro b h; simp [List.lookup] at h
  | cons p rest ih =>
    rcases p with ⟨a, c⟩
    intro b h
    rw [List.map_cons]
    cases hka : k == a
    · have hak : ¬ ((a == k) = true) := by
        simp only [beq_iff_eq]
        intro hcon
        subst hcon
        rw [beq_self_eq_true] at hka
        exact absurd hka (by simp)
      rw [if_neg hak]
      simp only [List.lookup, hka] at h ⊢
      exact ih b h
    · have ha : k = a := eq_of_beq hka
      subst ha
      rw [if_pos (beq_self_eq_true k)]
      simp only [List.lookup, beq_self_eq_true] at h ⊢
      injection h with h
      subst h
      rfl

theorem lookup_append_single_other (k k2 : String) (v : List ℚ)
    (hne : (k == k2) = false) :
    ∀ (m : List (String × List ℚ)),
      List.lookup k (m ++ [(k2, v)]) = List.lookup k m := by
  intro m
  induction m with
  | nil => simp [List.lookup, hne]
  | cons p rest ih =>
    rcases p with ⟨a, b⟩
    cases hka : k == a <;> simp [List.lookup, hka, ih]

theorem lookup_map_other (k k2 : String) (v : List ℚ) (hne : k ≠ k2) :
    ∀ (m : List (String × List ℚ)),
      List.lookup k (m.map (fun p => if p.1 == k2 then (p.1, p.2 ++ v) else p)) =
        List.lookup k m := by
  intro m
  induction m with
  | nil => rfl
  | cons p rest ih =>
    rcases p with ⟨a, b⟩
    rw [List.map_cons]
    by_cases hak2 : (a == k2) = true
    · rw [if_pos hak2]
      have ha : a = k2 := eq_of_beq hak2
      have hka : (k == a) = false := beq_eq_false_iff_ne.mpr (by rw [ha]; exact hne)
      simp only [List.lookup, hka]
      exact ih
    · rw [if_neg hak2]
      cases hka : k == a
      · simp only [List.lookup, hka]
        exact ih
      · simp only [List.lookup, hka]

theorem lookup_insertAppend_self (m : List (String × List ℚ)) (k : String) (v : List ℚ)
    (hv : v ≠ []) :
    List.lookup k (insertAppend m k v) = combineOpt (List.lookup k m) v := by
  unfold insertAppend
  cases hany : m.any (fun p => p.1 == k)
  · rw [if_neg (by simp [hany])]
    have hnone := lookup_eq_none_of_any_false k m hany
    rw [lookup_append_right k v m hnone, hnone]
    simp [combineOpt, hv]
  · rw [if_pos (by simp [hany])]
    obtain ⟨b, hb⟩ := lookup_isSome_of_any k m hany
    rw [lookup_mapAppend k v m b hb, hb]
    rfl

theorem lookup_insertAppend_other (m : List (String × List ℚ)) (k k2 : String)
    (v : List ℚ) (hne : k ≠ k2) :
    List.lookup k (insertAppend m k2 v) = List.lookup k m := by
  unfold insertAppend
  cases hany : m.any (fun p => p.1 == k2)
  · rw [if_neg (by simp [hany])]
    exact lookup_append_single_other k k2 v (beq_eq_false_iff_ne.mpr hne) m
  · rw [if_pos (by simp [hany])]
    exact lookup_map_other k k2 v hne m

theorem keys_nodup_insertAppend (m : List (String × List ℚ)) (k : String) (v : List ℚ)
    (h : (m.map Prod.fst).Nodup) : ((insertAppend m k v).map Prod.fst).Nodup := by
  unfold insertAppend
  cases hany : m.any (fun p => p.1 == k)
  · rw [if_neg (by simp [hany])]
    rw [List.map_append]
    rw [List.nodup_append]
    refine ⟨h, by simp, ?_⟩
    intro a ha hb
    simp only [List.map_cons, List.map_nil, List.mem_singleton] at hb
    subst hb
    rw [List.any_eq_false] at hany
    obtain ⟨p, hp, hpa⟩ := List.mem_map.mp ha
    have hne := hany p hp
    simp only [beq_iff_eq] at hne
    exact hne hpa
  · rw [if_pos (by simp [hany])]
    have hkeys : (m.map (fun p => if p.1 == k then (p.1, p.2 ++ v) else p)).map Prod.fst =
        m.map Prod.fst := by
      rw [List.map_map]
      apply List.map_congr_left
      intro p hp
      by_cases hpk : (p.1 == k) = true
      · rw [Function.comp_apply, if_pos hpk]
      · rw [Function.comp_apply, if_neg hpk]
    rw [hkeys]
    exact h

/-- The severities the `forEach` loop has attributed to key `k` over the
entries of `fd`, in loop order. -/
def collectFor (sd : List (ℚ × ℚ)) (fd : List (String × ℚ)) (k : String) : List ℚ :=
  fd.flatMap (fun p => if p.1 == k then windowSevs sd p.2 else [])

theorem lookup_foldl_fcStep (sd : List (ℚ × ℚ)) (k : String) :
    ∀ (fd : List (String × ℚ)) (m : List (String × List ℚ)),
      (m.map Prod.fst).Nodup →
      List.lookup k (fd.foldl (fcStep sd) m) =
        combineOpt (List.lookup k m) (collectFor sd fd k) := by
  intro fd
  induction fd with
  | nil =>
    intro m hm
    show List.lookup k m = combineOpt (List.lookup k m) []
    rcases h : List.lookup k m with _ | b <;> simp [combineOpt]
  | cons p rest ih =>
    intro m hm
    have hcollect : collectFor sd (p :: rest) k =
        (if p.1 == k then windowSevs sd p.2 else []) ++ collectFor sd rest k := by
      simp [collectFor]
    show List.lookup k (rest.foldl (fcStep sd) (fcStep sd m p)) = _
    rw [hcollect]
    by_cases hrel : windowSevs sd p.2 = []
    · have hstep : fcStep sd m p = m := by
        unfold fcStep
        dsimp only
        rw [if_pos hrel]
      rw [hstep, ih m hm]
      by_cases hpk : (p.1 == k) = true
      · rw [if_pos hpk, hrel]
        simp
      · rw [if_neg hpk]
        simp
    · have hstep : fcStep sd m p = insertAppend m p.1 (windowSevs sd p.2) := by
        unfold fcStep
        dsimp only
        rw [if_neg hrel]
      rw [hstep, ih _ (keys_nodup_insertAppend m p.1 _ hm)]
      by_cases hpk : (p.1 == k) = true
      · have hk : p.1 = k := eq_of_beq hpk
        subst hk
        rw [lookup_insertAppend_self m p.1 _ hrel, if_pos hpk, combineOpt_assoc]
      · have hk : k ≠ p.1 := by
          intro h
          rw [← h] at hpk
          exact hpk (beq_self_eq_true k)
        rw [lookup_insertAppend_other m k p.1 _ hk, if_neg hpk]
        simp

theorem matchedSevs_eq_collectFor (logs : List FoodLog) (hist : List Reaction)
    (item : String) :
    matchedSevs logs hist item = collectFor (severityDataOf hist) (foodDataOf logs) item :=
  rfl

/-- C7 (confirmed): the food–reaction correlator maps exactly the logged
food items having at least one reaction within 24 hours after some
logged occurrence of the item, each to the arithmetic mean severity of
those in-window reactions (in loop order, an occurrence per attribution),
and omits items with no matching window; in particular one food log
{items:["peanuts"], ts=T} and one reaction {severity:8, ts=T+2h} yields
{"peanuts": 8}. -/
theorem food_correlator_characterisation :
    (∀ logs hist item, List.lookup item (analyzeFoodCorrelations logs hist) =
      (if matchedSevs logs hist item = [] then none
       else some (jsMean (matchedSevs logs hist item)))) ∧
    analyzeFoodCorrelations [⟨some ⟨0, 10, 1, 0⟩, some ["peanuts"]⟩]
      [⟨some ⟨7200000, 12, 1, 0⟩, some 8, none⟩] = [("peanuts", 8)] := by
  constructor
  · intro logs hist item
    unfold analyzeFoodCorrelations
    by_cases hguard : logs = [] ∨ hist = []
    · rw [if_pos hguard]
      have hm : matchedSevs logs hist item = [] := by
        rcases hguard with h | h
        · subst h
          rfl
        · subst h
          unfold matchedSevs
          simp
          intro a b hmem ha
          rfl
      rw [hm]
      simp
    · rw [if_neg hguard]
      rw [lookup_map_value jsMean item]
      unfold foodCorrelationLists
      rw [lookup_foldl_fcStep (severityDataOf hist) item (foodDataOf logs) [] (by simp)]
      rw [← matchedSevs_eq_collectFor]
      show (combineOpt none (matchedSevs logs hist item)).map jsMean = _
      by_cases hm : matchedSevs logs hist item = []
      · rw [hm]
        simp [combineOpt]
      · simp [combineOpt, hm]
  · with_unfolding_all decide
